import Mathlib

/-!
Shallow embedding of the unpak sandbox-composition core (src/main.rs).

Paths (`PathBuf`, `OsString`) are modelled as `String`.  Rust's
`Path::file_name` and `PathBuf::join` are reimplemented below following
their documented semantics on `/`-separated paths.  A Rust `panic!` /
`unwrap` failure is modelled as `none` of an `Option` result; functions
that cannot fail return their value directly.
-/

/-- Splits a character list into the chunks delimited by the separator
character, mirroring how a Rust path string decomposes into raw
components before normalization.  `acc` holds the (reversed) characters
of the chunk currently being read. -/
def chunks : List Char → List Char → List (List Char)
  | [], acc => [acc.reverse]
  | c :: rest, acc =>
    if c = '/' then acc.reverse :: chunks rest [] else chunks rest (c :: acc)

/-- The surviving components of a path string: empty chunks (from
duplicate or trailing separators, or a leading root) and `.` chunks are
skipped, as Rust's component normalization does. -/
def rawComponents (s : String) : List String :=
  ((chunks s.toList []).map (fun l => String.mk l)).filter
    (fun c => c != "" && c != ".")

/-- Model of Rust `Path::file_name`: the last surviving component of
the path, if it is a normal component; a path terminating in `..` or
having no normal final component yields `none`. -/
def fileName (s : String) : Option String :=
  match (rawComponents s).getLast? with
  | some c => if c = ".." then none else some c
  | none => none

/-- Model of Rust `PathBuf::join`: an absolute right operand replaces the
left; otherwise the two are concatenated with a separator inserted
unless the left is empty or already ends in one. -/
def joinPath (dir name : String) : String :=
  if name.toList.head? = some '/' then name
  else if dir = "" then name
  else if dir.toList.getLast? = some '/' then dir ++ name
  else (dir ++ "/") ++ name

/-- `const INTERPRETER_HOST: &str` from src/main.rs. -/
def INTERPRETER_HOST : String := "/lib64/ld-linux-x86-64.so.2"

/-- `const SBX_LD_LINUX: &str` from src/main.rs. -/
def SBX_LD_LINUX : String := "/usr/lib/ld-linux-x86-64.so.2"

/-- `const FHS_EXE: &str` from src/main.rs. -/
def FHS_EXE : String := "/usr/bin"

/-- `const FHS_SO: &str` from src/main.rs. -/
def FHS_SO : String := "/usr/lib"

/-- `enum StdMountLocation` from src/main.rs. -/
inductive StdMountLocation
  | UserExe
  | UserSo
deriving DecidableEq, Repr

/-- `StdMountLocation::into_absolute_path` from src/main.rs. -/
def StdMountLocation.into_absolute_path : StdMountLocation → String
  | .UserExe => FHS_EXE
  | .UserSo => FHS_SO

/-- `StdMountLocation::to_absolute_path` from src/main.rs (same mapping,
by-reference variant). -/
def StdMountLocation.to_absolute_path : StdMountLocation → String
  | .UserExe => FHS_EXE
  | .UserSo => FHS_SO

/-- `struct HostPath(pub PathBuf)` from src/main.rs. -/
structure HostPath where
  path : String
deriving DecidableEq, Repr

/-- `struct SbxPath(pub PathBuf)` from src/main.rs. -/
structure SbxPath where
  path : String
deriving DecidableEq, Repr

/-- `struct Symlink` from src/main.rs: a symlink created at `dest`
pointing to `src`. -/
structure Symlink where
  dest : SbxPath
  src : SbxPath
deriving DecidableEq, Repr

/-- `enum Mount` from src/main.rs. -/
inductive Mount
  | touch (sbx_path : SbxPath)
  | fs (readonly : Bool) (host_path : HostPath) (sbx_path : SbxPath)
deriving DecidableEq, Repr

/-- `impl From<(T, StdMountLocation)> for Mount` from src/main.rs:
derives a read-only bind mount from a host path and a standard mount
location; `file_name().unwrap()` panics (modelled as `none`) when the
host path has no final normal component. -/
def mountFrom (host : String) (base_sbx : StdMountLocation) : Option Mount :=
  match fileName host with
  | none => none
  | some filename =>
    some (Mount.fs true ⟨host⟩ ⟨joinPath base_sbx.into_absolute_path filename⟩)

/-- `enum EnvVars` from src/main.rs: either inherit the host
environment or set an explicit list of variables. -/
inductive EnvVars
  | Inherit
  | Set (vars : List (String × String))
deriving DecidableEq, Repr

/-- `struct Bubblewrap` from src/main.rs: the accumulated sandbox
builder state. -/
structure Bubblewrap where
  mounts : List Mount
  symlinks : List Symlink
  path : Option String
  chdir : Option String
  unshare_pid : Bool
  new_session : Bool
  detach_output : Bool
  program : Option String
  envvars : EnvVars
deriving DecidableEq, Repr

/-- `Bubblewrap::new` from src/main.rs. -/
def Bubblewrap.new : Bubblewrap :=
  { mounts := [], symlinks := [], path := none, chdir := none,
    unshare_pid := false, new_session := false, detach_output := false,
    program := none, envvars := EnvVars.Inherit }

/-- `Bubblewrap::add_mount` from src/main.rs (push onto the mount
vector). -/
def Bubblewrap.add_mount (b : Bubblewrap) (mount : Mount) : Bubblewrap :=
  { b with mounts := b.mounts ++ [mount] }

/-- `Bubblewrap::add_mounts` from src/main.rs (extend the mount
vector). -/
def Bubblewrap.add_mounts (b : Bubblewrap) (ms : List Mount) : Bubblewrap :=
  { b with mounts := b.mounts ++ ms }

/-- `Bubblewrap::add_symlink` from src/main.rs. -/
def Bubblewrap.add_symlink (b : Bubblewrap) (s : Symlink) : Bubblewrap :=
  { b with symlinks := b.symlinks ++ [s] }

/-- `Bubblewrap::add_symlinks` from src/main.rs. -/
def Bubblewrap.add_symlinks (b : Bubblewrap) (ss : List Symlink) : Bubblewrap :=
  { b with symlinks := b.symlinks ++ ss }

/-- `Bubblewrap::set_program` from src/main.rs: unconditionally
overwrites the stored program. -/
def Bubblewrap.set_program (b : Bubblewrap) (program : String) : Bubblewrap :=
  { b with program := some program }

/-- `Bubblewrap::with_program` from src/main.rs (owning variant of
`set_program`). -/
def Bubblewrap.with_program (b : Bubblewrap) (program : String) : Bubblewrap :=
  b.set_program program

/-- `Bubblewrap::with_inherit_env` from src/main.rs: `true` selects
`EnvVars::Inherit`, `false` selects an empty explicit list. -/
def Bubblewrap.with_inherit_env (b : Bubblewrap) (inherit : Bool) : Bubblewrap :=
  { b with envvars := if inherit then EnvVars.Inherit else EnvVars.Set [] }

/-- `EnvVars::set_mut` composed with `push`, i.e. the body of
`Bubblewrap::add_envvar` from src/main.rs.  Under `Inherit` the Rust
code panics ("cannot add new environment variables if `inherit` is
set."), modelled as `none`. -/
def Bubblewrap.add_envvar (b : Bubblewrap) (id value : String) : Option Bubblewrap :=
  match b.envvars with
  | EnvVars.Inherit => none
  | EnvVars.Set l => some { b with envvars := EnvVars.Set (l ++ [(id, value)]) }

/-- The arguments `Bubblewrap::spawn` pushes for one mount: `--dir` for
a touch, `--ro-bind`/`--bind` for a filesystem bind. -/
def mountArgs : Mount → List String
  | Mount.touch sbx_path => ["--dir", sbx_path.path]
  | Mount.fs readonly host_path sbx_path =>
    [(if readonly then "--ro-bind" else "--bind"), host_path.path, sbx_path.path]

/-- The arguments `Bubblewrap::spawn` pushes for one symlink. -/
def symlinkArgs (s : Symlink) : List String :=
  ["--symlink", s.src.path, s.dest.path]

/-- The arguments the `match self.envvars` arm of `Bubblewrap::spawn`
pushes: nothing when inheriting (only a warning is printed),
`--clearenv` when the explicit list is empty, otherwise a
`--setenv id value` triple per variable. -/
def envArgs : EnvVars → List String
  | EnvVars.Inherit => []
  | EnvVars.Set l =>
    if l = [] then ["--clearenv"]
    else l.foldl (fun acc p => acc ++ ["--setenv", p.1, p.2]) []

/-- `Bubblewrap::spawn` from src/main.rs, restricted to the argument
vector it hands to the external `bwrap` process.  Arguments accumulate
in the order of the `cmd.args`/`cmd.arg` calls; the final
`self.program.expect(..)` panic (no program set) is modelled as `none`
and occurs before any process is spawned. -/
def spawnArgs (b : Bubblewrap) : Option (List String) :=
  let a1 := b.mounts.foldl (fun acc m => acc ++ mountArgs m) []
  let a2 := b.symlinks.foldl (fun acc s => acc ++ symlinkArgs s) a1
  let a3 := match b.path with
    | some p => a2 ++ ["--set-env", "PATH", p]
    | none => a2
  let a4 := match b.chdir with
    | some c => a3 ++ ["--chdir", c]
    | none => a3
  let a5 := if b.unshare_pid then a4 ++ ["--unshare-pid"] else a4
  let a6 := if b.new_session then a5 ++ ["--new-session"] else a5
  let a7 := a6 ++ envArgs b.envvars
  match b.program with
  | some prog => some (a7 ++ [prog])
  | none => none

/-- The two `Mount::Touch` directives `launch_bubblewrap` adds before
the user mounts. -/
def essentialDirs : List Mount :=
  [Mount.touch ⟨"/usr/sbin"⟩, Mount.touch ⟨"/usr/bin"⟩]

/-- The ld-linux interpreter bind `launch_bubblewrap` adds after the
user mounts. -/
def ldMount : Mount :=
  Mount.fs true ⟨INTERPRETER_HOST⟩ ⟨SBX_LD_LINUX⟩

/-- The five compatibility symlinks `launch_bubblewrap` adds. -/
def fixedSymlinks : List Symlink :=
  [ { dest := ⟨"/usr/lib64/ld-linux-x86-64.so.2"⟩, src := ⟨SBX_LD_LINUX⟩ },
    { dest := ⟨"/lib"⟩, src := ⟨"/usr/lib"⟩ },
    { dest := ⟨"/lib64"⟩, src := ⟨"/usr/lib64"⟩ },
    { dest := ⟨"/bin"⟩, src := ⟨"/usr/bin"⟩ },
    { dest := ⟨"/sbin"⟩, src := ⟨"/usr/sbin"⟩ } ]

/-- `launch_bubblewrap` from src/main.rs, up to the builder state on
which `.spawn()` is called: the two essential directories, then the
caller's mounts, then the interpreter bind, then the five compatibility
symlinks, the target program, and a non-inherited (empty explicit)
environment. -/
def launch_bubblewrap (proc : String) (mounts : List Mount) : Bubblewrap :=
  ((((Bubblewrap.new.add_mount (Mount.touch ⟨"/usr/sbin"⟩)).add_mount
        (Mount.touch ⟨"/usr/bin"⟩)).add_mounts mounts).add_mount
      ldMount).add_symlinks fixedSymlinks
    |>.with_program proc
    |>.with_inherit_env false

/-- `struct BuildCmd` from src/main.rs. -/
structure BuildCmd where
  program : String
  arguments : List String
deriving DecidableEq, Repr

/-- `enum BuildProcess` from src/main.rs. -/
inductive BuildProcess
  | Cmds (cmds : List BuildCmd)
deriving DecidableEq, Repr

/-- Outcome of attempting to run one external command: the spawn fails
(program cannot be started), or the process runs and exits with a
status code. -/
inductive CmdOutcome
  | spawnFail
  | exited (code : Int)
deriving DecidableEq, Repr

/-- `SourceProject::build`'s `BuildProcess::Cmds` loop from src/main.rs,
with the behaviour of each command supplied by the oracle `run`.
Returns the list of commands attempted (each is announced and spawned)
together with `true` when the loop ran to completion and `false` when
it panicked.  Faithful to the code: a spawn failure hits
`.expect("failed to spawn command")` and stops the loop, while the exit
status returned by `.wait()` is discarded (`.unwrap()` only guards the
wait itself), so the loop continues after a non-zero exit. -/
def buildRun (run : BuildCmd → CmdOutcome) : List BuildCmd → List BuildCmd × Bool
  | [] => ([], true)
  | c :: rest =>
    match run c with
    | CmdOutcome.spawnFail => ([c], false)
    | CmdOutcome.exited _ =>
      let r := buildRun run rest
      (c :: r.1, r.2)

/-- Spec-side rendering of the dependency-to-mount derivation, for
comparison with `mountFrom`: per the spec's resolution policy, the host
path is first resolved to its real, symlink-free absolute location
(modelled by the resolver `canon`, standing for canonicalization
against the host filesystem), and the derivation fails when resolution
fails.  The bind mount is then produced from the resolved path. -/
def mountFromSpecResolved (canon : String → Option String) (host : String)
    (base_sbx : StdMountLocation) : Option Mount :=
  match canon host with
  | none => none
  | some real =>
    match fileName real with
    | none => none
    | some filename =>
      some (Mount.fs true ⟨real⟩ ⟨joinPath base_sbx.into_absolute_path filename⟩)

/-- The mount-directive block of the emitted argument vector: the
per-mount argument groups, concatenated in addition order. -/
def mountSection (ms : List Mount) : List String :=
  (ms.map mountArgs).flatten

/-- The symlink block of the emitted argument vector, in addition
order. -/
def symlinkSection (ss : List Symlink) : List String :=
  (ss.map symlinkArgs).flatten

/-- The PATH-override block of the emitted argument vector. -/
def pathSection : Option String → List String
  | some p => ["--set-env", "PATH", p]
  | none => []

/-- The working-directory block of the emitted argument vector. -/
def chdirSection : Option String → List String
  | some c => ["--chdir", c]
  | none => []

/-- The PID-namespace block of the emitted argument vector. -/
def unshareSection (b : Bool) : List String :=
  if b then ["--unshare-pid"] else []

/-- The new-session block of the emitted argument vector. -/
def sessionSection (b : Bool) : List String :=
  if b then ["--new-session"] else []

/-- Occurrence count of a mount directive in a mount list (explicit
recursion so that concrete counts reduce definitionally). -/
def countM (d : Mount) : List Mount → Nat
  | [] => 0
  | m :: rest => (if m = d then 1 else 0) + countM d rest

/-- First command of a concrete three-command build sequence. -/
def cmdA : BuildCmd := ⟨"/usr/bin/make", ["all"]⟩

/-- Second command of the concrete sequence. -/
def cmdB : BuildCmd := ⟨"/usr/bin/make", ["check"]⟩

/-- Third command of the concrete sequence. -/
def cmdC : BuildCmd := ⟨"/usr/bin/make", ["install"]⟩

/-- Execution oracle under which the second command exits with status 1
and every other command exits with status 0. -/
def runSecondFails : BuildCmd → CmdOutcome := fun c =>
  if c = cmdB then CmdOutcome.exited 1 else CmdOutcome.exited 0

/-- Resolver modelling a host filesystem on which no path can be
canonicalized (the artifact is absent or inaccessible). -/
def canonAlwaysFails : String → Option String := fun _ => none

lemma countM_append (d : Mount) (l₁ l₂ : List Mount) :
    countM d (l₁ ++ l₂) = countM d l₁ + countM d l₂ := by
  induction l₁ with
  | nil => simp [countM]
  | cons m rest ih => simp [countM, ih]; omega

lemma foldl_append_join {α β : Type} (f : α → List β) :
    ∀ (l : List α) (init : List β),
      l.foldl (fun acc x => acc ++ f x) init = init ++ (l.map f).flatten := by
  intro l
  induction l with
  | nil => intro init; simp
  | cons a rest ih => intro init; simp [List.foldl_cons, ih]

/-- The argument vector of `Bubblewrap::spawn` decomposes into the
blocks in the order the code pushes them: mounts, symlinks, PATH,
chdir, unshare-pid, new-session, environment policy, program. -/
lemma spawnArgs_sections (b : Bubblewrap) (prog : String)
    (h : b.program = some prog) :
    spawnArgs b = some (mountSection b.mounts ++ symlinkSection b.symlinks
      ++ pathSection b.path ++ chdirSection b.chdir
      ++ unshareSection b.unshare_pid ++ sessionSection b.new_session
      ++ envArgs b.envvars ++ [prog]) := by
  cases hp : b.path <;> cases hc : b.chdir <;>
    cases hu : b.unshare_pid <;> cases hn : b.new_session <;>
      simp [spawnArgs, h, hp, hc, hu, hn, foldl_append_join,
        mountSection, symlinkSection, pathSection, chdirSection,
        unshareSection, sessionSection, List.append_assoc]

lemma mem_of_getLast?_eq {α : Type} {l : List α} {a : α}
    (h : l.getLast? = some a) : a ∈ l := by
  obtain ⟨hne, heq⟩ := List.mem_getLast?_eq_getLast (Option.mem_def.mpr h)
  subst heq
  exact List.getLast_mem hne

lemma chunks_no_sep : ∀ (l acc : List Char), (∀ x ∈ acc, x ≠ '/') →
    ∀ c ∈ chunks l acc, ∀ x ∈ c, x ≠ '/' := by
  intro l
  induction l with
  | nil =>
    intro acc hacc c hc x hx
    simp only [chunks, List.mem_singleton] at hc
    subst hc
    exact hacc x (List.mem_reverse.mp hx)
  | cons a rest ih =>
    intro acc hacc c hc x hx
    by_cases ha : a = '/'
    · simp only [chunks] at hc
      rw [if_pos ha] at hc
      rcases List.mem_cons.mp hc with h1 | h1
      · subst h1
        exact hacc x (List.mem_reverse.mp hx)
      · exact ih [] (by simp) c h1 x hx
    · simp only [chunks] at hc
      rw [if_neg ha] at hc
      refine ih (a :: acc) ?_ c hc x hx
      intro y hy
      rcases List.mem_cons.mp hy with rfl | hy
      · exact ha
      · exact hacc y hy

lemma rawComponents_no_slash (s : String) (c : String)
    (hc : c ∈ rawComponents s) : ∀ x ∈ c.toList, x ≠ '/' := by
  unfold rawComponents at hc
  have hc' := List.mem_of_mem_filter hc
  obtain ⟨ch, hch, rfl⟩ := List.mem_map.mp hc'
  intro x hx
  exact chunks_no_sep s.toList [] (by simp) ch hch x hx

lemma fileName_head_not_slash (s name : String) (h : fileName s = some name) :
    name.toList.head? ≠ some '/' := by
  unfold fileName at h
  split at h
  · rename_i c heq
    split at h
    · exact absurd h (by simp)
    · have hcn : c = name := Option.some.inj h
      subst hcn
      have hmem : c ∈ rawComponents s := mem_of_getLast?_eq heq
      have hns := rawComponents_no_slash s c hmem
      cases hcl : c.toList with
      | nil => simp [hcl]
      | cons a t =>
        simp only [hcl, List.head?_cons, ne_eq, Option.some.injEq]
        intro hav
        exact hns a (by rw [hcl]; exact List.mem_cons_self a t) hav
  · exact absurd h (by simp)

lemma joinPath_eq_append (dir name : String) (hdir : dir ≠ "")
    (hlast : dir.toList.getLast? ≠ some '/')
    (hname : name.toList.head? ≠ some '/') :
    joinPath dir name = (dir ++ "/") ++ name := by
  unfold joinPath
  rw [if_neg hname, if_neg hdir, if_neg hlast]

lemma launch_mounts_eq (p : String) (us : List Mount) :
    (launch_bubblewrap p us).mounts = essentialDirs ++ us ++ [ldMount] := by
  simp [launch_bubblewrap, Bubblewrap.new, Bubblewrap.add_mount,
    Bubblewrap.add_mounts, Bubblewrap.add_symlinks, Bubblewrap.with_program,
    Bubblewrap.set_program, Bubblewrap.with_inherit_env, essentialDirs,
    List.append_assoc]

lemma launch_symlinks_eq (p : String) (us : List Mount) :
    (launch_bubblewrap p us).symlinks = fixedSymlinks := by
  simp [launch_bubblewrap, Bubblewrap.new, Bubblewrap.add_mount,
    Bubblewrap.add_mounts, Bubblewrap.add_symlinks, Bubblewrap.with_program,
    Bubblewrap.set_program, Bubblewrap.with_inherit_env]

/-- Claim C1, evaluated at its failing input: in the
`SourceProject::build` loop, a command sequence whose second command
exits with non-zero status runs to completion with all three commands
executed — the exit status returned by `wait()` is discarded, so the
non-zero exit of the second command is not fatal and the third command
still runs, contrary to the claim. -/
theorem C1_third_runs_after_nonzero_exit :
    buildRun runSecondFails [cmdA, cmdB, cmdC] = ([cmdA, cmdB, cmdC], true) ∧
    runSecondFails cmdB = CmdOutcome.exited 1 := by
  decide

/-- Claim C2, counterexample: the dependency-to-mount derivation of the
code ignores canonicalization entirely — on a host where the path
cannot be resolved at all, the spec-side derivation fails while the
code's derivation still produces a bind mount of the unresolved path. -/
theorem C2_counterexample :
    mountFromSpecResolved canonAlwaysFails "/a/libfoo.so" StdMountLocation.UserSo
      = none ∧
    mountFrom "/a/libfoo.so" StdMountLocation.UserSo
      = some (Mount.fs true ⟨"/a/libfoo.so"⟩ ⟨"/usr/lib/libfoo.so"⟩) := by
  constructor
  · rfl
  · decide

/-- Claim C2 (amended): the derivation performs no resolution at all —
it succeeds exactly when the host path has a final normal component,
never fails because a path does not exist or is inaccessible, and the
produced bind mount carries the input host path verbatim (and is
read-only). -/
theorem C2_no_resolution (host : String) (loc : StdMountLocation) :
    ((mountFrom host loc).isSome ↔ (fileName host).isSome) ∧
    (∀ ro hp sp, mountFrom host loc = some (Mount.fs ro hp sp) →
      hp.path = host ∧ ro = true) := by
  constructor
  · cases hfn : fileName host <;> simp [mountFrom, hfn]
  · intro ro hp sp hm
    cases hfn : fileName host <;> simp [mountFrom, hfn] at hm
    obtain ⟨h1, h2, h3⟩ := hm
    exact ⟨by rw [← h2], h1⟩

/-- Concrete instantiation of the amended C2 theorem at the host path
`/a/libfoo.so`. -/
theorem C2_no_resolution_witness :
    (⟨"/a/libfoo.so"⟩ : HostPath).path = "/a/libfoo.so" ∧ (true : Bool) = true :=
  (C2_no_resolution "/a/libfoo.so" StdMountLocation.UserSo).2 true
    ⟨"/a/libfoo.so"⟩ ⟨"/usr/lib/libfoo.so"⟩ (by decide)

/-- Claim C3, evaluated at its failing input: for an explicit
environment holding one variable, the emission is only the
`--setenv` triple — no `--clearenv` directive is emitted (the code
makes the two mutually exclusive), contrary to the claim. -/
theorem C3_setenv_without_clearenv :
    envArgs (EnvVars.Set [("A", "B")]) = ["--setenv", "A", "B"] ∧
    "--clearenv" ∉ envArgs (EnvVars.Set [("A", "B")]) := by
  decide

/-- Claim C4: for every finalized builder state with a program set, the
emitted argument vector is exactly the mount block in addition order,
then the symlink block in addition order, then the PATH override, the
working-directory change, the PID-unshare flag, the new-session flag,
the environment-policy flags, and the target program last. -/
theorem C4_emission_order (b : Bubblewrap) (prog : String)
    (h : b.program = some prog) :
    spawnArgs b = some (mountSection b.mounts ++ symlinkSection b.symlinks
      ++ pathSection b.path ++ chdirSection b.chdir
      ++ unshareSection b.unshare_pid ++ sessionSection b.new_session
      ++ envArgs b.envvars ++ [prog]) :=
  spawnArgs_sections b prog h

/-- Concrete instantiation of the C4 theorem on a fresh builder with
only a program set. -/
theorem C4_emission_order_witness :
    spawnArgs (Bubblewrap.new.set_program "/bin/sh")
      = some (mountSection [] ++ symlinkSection [] ++ pathSection none
        ++ chdirSection none ++ unshareSection false ++ sessionSection false
        ++ envArgs EnvVars.Inherit ++ ["/bin/sh"]) :=
  C4_emission_order (Bubblewrap.new.set_program "/bin/sh") "/bin/sh" rfl

/-- Claim C5, counterexample: when the user mount set itself contains
the `/usr/bin` placeholder directive, the finalized mount list of
`launch_bubblewrap` contains that directive twice — the baseline is not
deduplicated against user mounts, contrary to the claim's "no
duplicates even if user mounts also touch those directories". -/
theorem C5_counterexample :
    countM (Mount.touch ⟨"/usr/bin"⟩)
      (launch_bubblewrap "/usr/bin/bash" [Mount.touch ⟨"/usr/bin"⟩]).mounts
      = 2 := by
  decide

/-- Claim C5 (amended): `launch_bubblewrap` itself contributes each
baseline directive (the `/usr/sbin` and `/usr/bin` placeholder
directories and the read-only interpreter bind) exactly once — so each
occurs exactly once whenever the user mounts do not also contain it —
but no deduplication is performed: a user mount equal to a baseline
directive is kept in addition.  The five compatibility symlinks are
emitted exactly as the fixed list, independent of the user mounts. -/
theorem C5_baseline_once (p : String) (us : List Mount) (d : Mount)
    (hd : d ∈ essentialDirs ++ [ldMount]) :
    countM d (launch_bubblewrap p us).mounts = 1 + countM d us ∧
    (launch_bubblewrap p us).symlinks = fixedSymlinks := by
  refine ⟨?_, launch_symlinks_eq p us⟩
  rw [launch_mounts_eq, List.append_assoc, countM_append, countM_append]
  fin_cases hd
  all_goals simp [countM, essentialDirs, ldMount, INTERPRETER_HOST, SBX_LD_LINUX]
  all_goals omega

/-- Concrete instantiation of the amended C5 theorem with an empty user
mount set and the `/usr/sbin` placeholder directive. -/
theorem C5_baseline_once_witness :
    countM (Mount.touch ⟨"/usr/sbin"⟩)
      (launch_bubblewrap "/usr/bin/bash" []).mounts
      = 1 + countM (Mount.touch ⟨"/usr/sbin"⟩) [] ∧
    (launch_bubblewrap "/usr/bin/bash" []).symlinks = fixedSymlinks :=
  C5_baseline_once "/usr/bin/bash" [] (Mount.touch ⟨"/usr/sbin"⟩) (by decide)

/-- Claim C6: the dependency-to-mount derivation is deterministic and
role-correct — for any host path with a final normal component, role
`SharedLibrary` (`UserSo`) derives the read-only bind at
`/usr/lib/<basename>` and role `Executable` (`UserExe`) derives the
read-only bind at `/usr/bin/<basename>`. -/
theorem C6_role_correct (host name : String) (h : fileName host = some name) :
    mountFrom host StdMountLocation.UserSo
      = some (Mount.fs true ⟨host⟩ ⟨"/usr/lib/" ++ name⟩) ∧
    mountFrom host StdMountLocation.UserExe
      = some (Mount.fs true ⟨host⟩ ⟨"/usr/bin/" ++ name⟩) := by
  have hn := fileName_head_not_slash host name h
  have h1 : joinPath "/usr/lib" name = "/usr/lib/" ++ name := by
    rw [joinPath_eq_append "/usr/lib" name (by decide) (by decide) hn]
    rfl
  have h2 : joinPath "/usr/bin" name = "/usr/bin/" ++ name := by
    rw [joinPath_eq_append "/usr/bin" name (by decide) (by decide) hn]
    rfl
  constructor
  · simp [mountFrom, h, StdMountLocation.into_absolute_path, FHS_SO, h1]
  · simp [mountFrom, h, StdMountLocation.into_absolute_path, FHS_EXE, h2]

/-- Concrete instantiation of the C6 theorem at `/a/b/libfoo.so`. -/
theorem C6_role_correct_witness :
    mountFrom "/a/b/libfoo.so" StdMountLocation.UserSo
      = some (Mount.fs true ⟨"/a/b/libfoo.so"⟩ ⟨"/usr/lib/libfoo.so"⟩) ∧
    mountFrom "/a/b/libfoo.so" StdMountLocation.UserExe
      = some (Mount.fs true ⟨"/a/b/libfoo.so"⟩ ⟨"/usr/bin/libfoo.so"⟩) :=
  C6_role_correct "/a/b/libfoo.so" "libfoo.so" (by decide)

/-- Claim C7: finalizing with the explicit empty environment
(`EnvVars::Set []`) emits the `--clearenv` directive in the environment
block and no `--setenv` flag, so nothing of the host environment is
passed to the child. -/
theorem C7_explicit_empty_clears (b : Bubblewrap) (prog : String)
    (henv : b.envvars = EnvVars.Set []) (h : b.program = some prog) :
    spawnArgs b = some (mountSection b.mounts ++ symlinkSection b.symlinks
      ++ pathSection b.path ++ chdirSection b.chdir
      ++ unshareSection b.unshare_pid ++ sessionSection b.new_session
      ++ ["--clearenv"] ++ [prog]) ∧
    "--setenv" ∉ envArgs b.envvars := by
  have hs := spawnArgs_sections b prog h
  rw [henv] at hs ⊢
  constructor
  · simpa [envArgs] using hs
  · simp [envArgs]

/-- Concrete instantiation of the C7 theorem on a fresh builder that
opts out of inheritance and sets a program. -/
theorem C7_explicit_empty_clears_witness :
    spawnArgs ((Bubblewrap.new.with_inherit_env false).set_program "/bin/sh")
      = some (mountSection [] ++ symlinkSection [] ++ pathSection none
        ++ chdirSection none ++ unshareSection false ++ sessionSection false
        ++ ["--clearenv"] ++ ["/bin/sh"]) ∧
    "--setenv" ∉ envArgs
      ((Bubblewrap.new.with_inherit_env false).set_program "/bin/sh").envvars :=
  C7_explicit_empty_clears
    ((Bubblewrap.new.with_inherit_env false).set_program "/bin/sh")
    "/bin/sh" rfl rfl

/-- Claim C8: finalizing a builder whose program was never set fails
deterministically (the `expect` panic, modelled as `none`) and hands no
argument vector to a spawned process; and a second `set_program`
overwrites the first program rather than keeping it or failing. -/
theorem C8_program_required_and_overwritten (b : Bubblewrap) (p₁ p₂ : String) :
    spawnArgs { b with program := none } = none ∧
    ((b.set_program p₁).set_program p₂).program = some p₂ := by
  constructor
  · simp [spawnArgs]
  · simp [Bubblewrap.set_program]

/-- Claim C9: adding an environment variable while the policy is
`Inherit` hits the `set_mut` panic (modelled as `none`) and records
nothing; once the policy is an explicit list, the same operation
appends the variable to that list. -/
theorem C9_envvar_inherit_fails_fast (b : Bubblewrap) (id value : String) :
    (b.envvars = EnvVars.Inherit → b.add_envvar id value = none) ∧
    (∀ l, b.envvars = EnvVars.Set l →
      b.add_envvar id value
        = some { b with envvars := EnvVars.Set (l ++ [(id, value)]) }) := by
  constructor
  · intro h
    simp [Bubblewrap.add_envvar, h]
  · intro l h
    simp [Bubblewrap.add_envvar, h]

/-- Concrete instantiation of the C9 theorem: a fresh builder (policy
`Inherit`) rejects the variable; after opting out of inheritance the
variable is accepted. -/
theorem C9_envvar_inherit_fails_fast_witness :
    Bubblewrap.new.add_envvar "CC" "gcc" = none ∧
    (Bubblewrap.new.with_inherit_env false).add_envvar "CC" "gcc"
      = some { Bubblewrap.new.with_inherit_env false with
               envvars := EnvVars.Set [("CC", "gcc")] } :=
  ⟨(C9_envvar_inherit_fails_fast Bubblewrap.new "CC" "gcc").1 rfl,
   (C9_envvar_inherit_fails_fast (Bubblewrap.new.with_inherit_env false)
      "CC" "gcc").2 [] rfl⟩

/-- Claim C10: when the host path has no final normal component (e.g.
the root `/` or a path ending in `..`), the dependency-to-mount
derivation hits the `unwrap` panic (modelled as `none`) instead of
producing a mount directive or a recoverable error. -/
theorem C10_no_filename_panics (host : String) (loc : StdMountLocation)
    (h : fileName host = none) : mountFrom host loc = none := by
  simp [mountFrom, h]

/-- Concrete instantiation of the C10 theorem at the root path and a
path ending in a parent component. -/
theorem C10_no_filename_panics_witness :
    mountFrom "/" StdMountLocation.UserSo = none ∧
    mountFrom "a/.." StdMountLocation.UserExe = none :=
  ⟨C10_no_filename_panics "/" StdMountLocation.UserSo (by decide),
   C10_no_filename_panics "a/.." StdMountLocation.UserExe (by decide)⟩
